import Mathlib

/-!
Verification of the Yandex partner photo re-uploader against its
specification.  The program (src/yandex_partner_reuploader.py) is shallowly
embedded below:

* the SQLite-backed `Storage` class becomes pure list-based tables
  (`addProcessed`, `isProcessed`, `bulkMarkProcessed`, `saveCabinets`);
* the per-item Selenium pipeline `YandexMarketPhotoReuploadeDriver.process_sku`
  becomes `processSku`, a function over a `PageEnv` oracle describing the
  outcome of every page-level operation, which returns the boolean result,
  the emitted log lines, and the trace of executed pipeline steps;
* the orchestrating thread body `ProcessWorker.run` becomes `workerRun`, a
  function over a `WorkerEnv` oracle (per-attempt pipeline outcomes, the
  abort flag, captcha resume ticks, storage fault injection) producing the
  stream of emitted Qt signals with explicit timestamps.  Time is modelled
  in ticks of 0.5 seconds, the polling interval of the captcha wait loop:
  `time.sleep(0.5)` advances one tick and `time.sleep(RETRY_DELAY)` advances
  `2 * RETRY_DELAY` ticks.
-/

namespace YPR

/-- Source constant `RETRY_COUNT = 3` (line 32). -/
def RETRY_COUNT : Nat := 3

/-- Source constant `RETRY_DELAY = 5` seconds (line 33). -/
def RETRY_DELAY : Nat := 5

/-! ## Storage (SQLite tables, lines 45-111)

The `processed` table has composite primary key `(campaign_id, sku)`; the
`processed_at DATETIME` column is a timestamp default and carries no
information any claim mentions, so a row is modelled by its key alone.
The `cabinets` table has primary key `business_id`. -/

/-- A row of the `processed` table: `(campaign_id, sku)`. -/
abbrev PRow := String × String

/-- `Storage.add_processed` (lines 74-80): `INSERT OR IGNORE` into a table
with primary key `(campaign_id, sku)` — if a row with this key exists the
insert is ignored, otherwise the row is appended. -/
def addProcessed (db : List PRow) (campaign_id sku : String) : List PRow :=
  if (campaign_id, sku) ∈ db then db else db ++ [(campaign_id, sku)]

/-- `Storage.is_processed` (lines 82-88): `SELECT 1 FROM processed WHERE
campaign_id=? AND sku=?` is non-empty. -/
def isProcessed (db : List PRow) (campaign_id sku : String) : Bool :=
  decide ((campaign_id, sku) ∈ db)

/-- `Storage.bulk_mark_processed` (lines 90-96): `executemany` of the same
`INSERT OR IGNORE`, one insert per sku in list order. -/
def bulkMarkProcessed (db : List PRow) (campaign_id : String) (skus : List String) : List PRow :=
  skus.foldl (fun d s => addProcessed d campaign_id s) db

/-- The `Cabinet` dataclass (lines 39-43) / a row of the `cabinets` table. -/
structure Cabinet where
  business_id : String
  name : String
  dashboard_href : String
deriving DecidableEq

/-- One `INSERT OR REPLACE INTO cabinets` (line 101): the row whose primary
key `business_id` conflicts is deleted and the new row inserted. -/
def upsertCabinet (db : List Cabinet) (c : Cabinet) : List Cabinet :=
  db.filter (fun r => decide (r.business_id ≠ c.business_id)) ++ [c]

/-- `Storage.save_cabinets` (lines 98-104): `executemany` of
`INSERT OR REPLACE`, one upsert per entry in list order. -/
def saveCabinets (db : List Cabinet) (cs : List Cabinet) : List Cabinet :=
  cs.foldl upsertCabinet db

/-- Observation: number of rows of the `processed` table with the given key. -/
def countKey (db : List PRow) (campaign_id sku : String) : Nat :=
  db.countP (fun r => decide (r = (campaign_id, sku)))

/-- Observation: number of `cabinets` rows with the given `business_id`. -/
def countId (db : List Cabinet) (id : String) : Nat :=
  db.countP (fun r => decide (r.business_id = id))

/-- Observation: the `cabinets` row a `SELECT ... WHERE business_id=?` sees;
with duplicates the most recently written (last) row is returned. -/
def lookupCab (db : List Cabinet) (id : String) : Option Cabinet :=
  match db with
  | [] => none
  | r :: t =>
    match lookupCab t id with
    | some x => some x
    | none => if r.business_id = id then some r else none

/-- The `business_id`s occurring in a list of entries. -/
def idsOf (cs : List Cabinet) : List String :=
  cs.map Cabinet.business_id

/-- A burst of `add_processed` calls, applied in order. -/
def applyAdds (db : List PRow) (ops : List PRow) : List PRow :=
  ops.foldl (fun d p => addProcessed d p.1 p.2) db

/-- A storage write operation reaching the `processed` table. -/
inductive StoreOp
| addOp (campaign_id sku : String)
| bulkOp (campaign_id : String) (skus : List String)

/-- Apply one storage write. -/
def applyOp (db : List PRow) (op : StoreOp) : List PRow :=
  match op with
  | .addOp c s => addProcessed db c s
  | .bulkOp c ss => bulkMarkProcessed db c ss

/-- Apply a sequence of storage writes in order. -/
def applyOps (db : List PRow) (ops : List StoreOp) : List PRow :=
  ops.foldl applyOp db

/-! ### Storage lemmas -/

lemma countKey_append (a b : List PRow) (c s : String) :
    countKey (a ++ b) c s = countKey a c s + countKey b c s := by
  simp [countKey, List.countP_append]

lemma countKey_pos_iff_mem (db : List PRow) (c s : String) :
    (c, s) ∈ db ↔ 1 ≤ countKey db c s := by
  unfold countKey
  constructor
  · intro h
    have : 0 < db.countP (fun r => decide (r = (c, s))) :=
      List.countP_pos_iff.mpr ⟨(c, s), h, by simp⟩
    omega
  · intro h
    have : 0 < db.countP (fun r => decide (r = (c, s))) := by omega
    obtain ⟨a, ha, hp⟩ := List.countP_pos_iff.mp this
    have ha2 : a = (c, s) := by simpa using hp
    exact ha2 ▸ ha

lemma countKey_addProcessed (db : List PRow) (c' s' c s : String) :
    countKey (addProcessed db c' s') c s =
      if (c', s') ∈ db then countKey db c s
      else countKey db c s + (if (c', s') = (c, s) then 1 else 0) := by
  by_cases h : (c', s') ∈ db
  · simp [addProcessed, h]
  · rw [addProcessed, if_neg h, countKey_append, if_neg h]
    congr 1
    by_cases he : (c', s') = (c, s) <;> simp [countKey, he]

lemma mem_addProcessed_self (db : List PRow) (c s : String) :
    (c, s) ∈ addProcessed db c s := by
  by_cases h : (c, s) ∈ db <;> simp [addProcessed, h]

lemma mem_addProcessed_of_mem (db : List PRow) (c' s' : String) {p : PRow}
    (h : p ∈ db) : p ∈ addProcessed db c' s' := by
  by_cases hm : (c', s') ∈ db <;> simp [addProcessed, hm, h]

lemma mem_bulk_of_mem (db : List PRow) (c' : String) (ss : List String) {p : PRow}
    (h : p ∈ db) : p ∈ bulkMarkProcessed db c' ss := by
  induction ss generalizing db with
  | nil => simpa [bulkMarkProcessed] using h
  | cons x t ih =>
    have : p ∈ addProcessed db c' x := mem_addProcessed_of_mem db c' x h
    simpa [bulkMarkProcessed] using ih (addProcessed db c' x) this

lemma mem_applyOp_of_mem (db : List PRow) (op : StoreOp) {p : PRow}
    (h : p ∈ db) : p ∈ applyOp db op := by
  cases op with
  | addOp c s => exact mem_addProcessed_of_mem db c s h
  | bulkOp c ss => exact mem_bulk_of_mem db c ss h

lemma mem_applyOps_of_mem (db : List PRow) (ops : List StoreOp) {p : PRow}
    (h : p ∈ db) : p ∈ applyOps db ops := by
  induction ops generalizing db with
  | nil => simpa [applyOps] using h
  | cons op t ih =>
    simpa [applyOps] using ih (applyOp db op) (mem_applyOp_of_mem db op h)

/-- C1 induction core: invariant preservation plus exactly-one after a call. -/
lemma applyAdds_countKey (ops : List PRow) (db : List PRow) (c s : String)
    (hinv : countKey db c s ≤ 1) :
    countKey (applyAdds db ops) c s ≤ 1 ∧
      (((c, s) ∈ ops ∨ (c, s) ∈ db) → countKey (applyAdds db ops) c s = 1) := by
  induction ops generalizing db with
  | nil =>
    refine ⟨hinv, ?_⟩
    rintro (h | h)
    · simp at h
    · have := (countKey_pos_iff_mem db c s).mp h
      simpa [applyAdds] using le_antisymm hinv this
  | cons p t ih =>
    rcases p with ⟨pc, ps⟩
    have hstep : applyAdds db ((pc, ps) :: t) = applyAdds (addProcessed db pc ps) t := by
      simp [applyAdds]
    have hinv' : countKey (addProcessed db pc ps) c s ≤ 1 := by
      rw [countKey_addProcessed]
      by_cases hm : (pc, ps) ∈ db
      · simpa [hm] using hinv
      · by_cases he : (pc, ps) = (c, s)
        · rw [he] at hm ⊢
          have h0 : countKey db c s = 0 := by
            by_contra hne
            exact hm ((countKey_pos_iff_mem db c s).mpr (Nat.one_le_iff_ne_zero.mpr hne))
          simp [hm, h0]
        · simpa [hm, he] using hinv
    obtain ⟨ha, hb⟩ := ih (addProcessed db pc ps) hinv'
    refine ⟨hstep ▸ ha, ?_⟩
    rintro (h | h)
    · rcases List.mem_cons.mp h with h | h
      · have hcs : (c, s) = (pc, ps) := h
        have : (c, s) ∈ addProcessed db pc ps := hcs ▸ mem_addProcessed_self db pc ps
        exact hstep ▸ hb (Or.inr this)
      · exact hstep ▸ hb (Or.inl h)
    · exact hstep ▸ hb (Or.inr (mem_addProcessed_of_mem db pc ps h))

/-! ### Cabinet lemmas -/

lemma upsertCabinet_cons (r : Cabinet) (db : List Cabinet) (c : Cabinet) :
    upsertCabinet (r :: db) c =
      if r.business_id ≠ c.business_id then r :: upsertCabinet db c
      else upsertCabinet db c := by
  by_cases h : r.business_id = c.business_id <;> simp [upsertCabinet, h]

lemma lookupCab_cons (r : Cabinet) (t : List Cabinet) (id : String) :
    lookupCab (r :: t) id =
      match lookupCab t id with
      | some x => some x
      | none => if r.business_id = id then some r else none := rfl

lemma countId_upsert (db : List Cabinet) (c : Cabinet) (id : String) :
    countId (upsertCabinet db c) id =
      if id = c.business_id then 1 else countId db id := by
  unfold upsertCabinet countId
  rw [List.countP_append, List.countP_filter]
  by_cases h : id = c.business_id
  · have hz : (db.countP fun a =>
        decide (a.business_id = id) && decide (a.business_id ≠ c.business_id)) = 0 := by
      rw [List.countP_eq_zero]
      intro a _ hcon
      simp only [Bool.and_eq_true, decide_eq_true_eq, ne_eq, decide_not,
        Bool.not_eq_true', decide_eq_false_iff_not] at hcon
      exact hcon.2 (by rw [hcon.1, h])
    rw [hz, if_pos h]
    have hco : c.business_id = id := h.symm
    simp [hco]
  · have hc : (db.countP fun a =>
        decide (a.business_id = id) && decide (a.business_id ≠ c.business_id)) =
        db.countP fun a => decide (a.business_id = id) := by
      apply List.countP_congr
      intro a _
      constructor
      · intro hh
        simp only [Bool.and_eq_true] at hh
        exact hh.1
      · intro hh
        simp only [decide_eq_true_eq] at hh
        simp only [Bool.and_eq_true, decide_eq_true_eq, ne_eq, decide_not,
          Bool.not_eq_true', decide_eq_false_iff_not]
        exact ⟨hh, fun hcc => h (by rw [← hh, hcc])⟩
    rw [hc]
    have hone : ¬ (c.business_id = id) := fun hh => h hh.symm
    simp [h, hone]

lemma lookupCab_append_single (l : List Cabinet) (c : Cabinet) (id : String) :
    lookupCab (l ++ [c]) id =
      if c.business_id = id then some c else lookupCab l id := by
  induction l with
  | nil =>
    by_cases h : c.business_id = id <;> simp [lookupCab, h]
  | cons r t ih =>
    have hstep : lookupCab ((r :: t) ++ [c]) id =
        match lookupCab (t ++ [c]) id with
        | some x => some x
        | none => if r.business_id = id then some r else none := rfl
    rw [hstep, ih]
    by_cases h : c.business_id = id
    · simp [h]
    · simp only [h, if_false]
      rw [lookupCab_cons]

lemma lookupCab_filter_ne (db : List Cabinet) (bid id : String) (h : id ≠ bid) :
    lookupCab (db.filter (fun r => decide (r.business_id ≠ bid))) id =
      lookupCab db id := by
  induction db with
  | nil => rfl
  | cons r t ih =>
    by_cases hr : r.business_id = bid
    · rw [List.filter_cons_of_neg (by simp [hr]), ih, lookupCab_cons]
      have hne : ¬ (r.business_id = id) := fun hc => h (by rw [← hc, hr])
      cases hl : lookupCab t id with
      | some x => simp [hl]
      | none => simp [hl, hne]
    · rw [List.filter_cons_of_pos (by simp [hr]), lookupCab_cons, ih, lookupCab_cons]

lemma lookupCab_filter_self (db : List Cabinet) (bid : String) :
    lookupCab (db.filter (fun r => decide (r.business_id ≠ bid))) bid = none := by
  induction db with
  | nil => rfl
  | cons r t ih =>
    by_cases hr : r.business_id = bid
    · rw [List.filter_cons_of_neg (by simp [hr])]
      exact ih
    · rw [List.filter_cons_of_pos (by simp [hr]), lookupCab_cons, ih]
      simp [hr]

lemma lookupCab_upsert (db : List Cabinet) (c : Cabinet) (id : String) :
    lookupCab (upsertCabinet db c) id =
      if id = c.business_id then some c else lookupCab db id := by
  unfold upsertCabinet
  rw [lookupCab_append_single]
  by_cases h : id = c.business_id
  · simp [h]
  · have : (c.business_id = id) = False := by
      simp only [eq_iff_iff, iff_false]
      exact fun hc => h hc.symm
    simp only [this, if_false, h]
    exact lookupCab_filter_ne db c.business_id id h

lemma lookupCab_saveCabinets (l : List Cabinet) (db : List Cabinet) (id : String) :
    lookupCab (saveCabinets db l) id =
      if id ∈ idsOf l then lookupCab (saveCabinets [] l) id else lookupCab db id := by
  induction l generalizing db with
  | nil => simp [saveCabinets, idsOf]
  | cons c t ih =>
    have hstep : ∀ d, saveCabinets d (c :: t) = saveCabinets (upsertCabinet d c) t := by
      intro d; simp [saveCabinets]
    rw [hstep db, hstep []]
    by_cases hmem : id ∈ idsOf t
    · have hmem' : id ∈ idsOf (c :: t) := by
        simp only [idsOf, List.map_cons, List.mem_cons]
        exact Or.inr hmem
      rw [ih (upsertCabinet db c), ih (upsertCabinet [] c)]
      simp only [hmem, hmem', if_true]
    · rw [ih (upsertCabinet db c), ih (upsertCabinet [] c)]
      by_cases hc : id = c.business_id
      · simp [hmem, idsOf, hc, lookupCab_upsert]
      · have : ¬ id ∈ idsOf (c :: t) := by
          simp only [idsOf, List.map_cons, List.mem_cons]
          rintro (h | h)
          · exact hc h
          · exact hmem h
        simp [hmem, this, lookupCab_upsert, hc]

lemma countId_saveCabinets (l : List Cabinet) (db : List Cabinet) (id : String) :
    countId (saveCabinets db l) id =
      if id ∈ idsOf l then 1 else countId db id := by
  induction l generalizing db with
  | nil => simp [saveCabinets, idsOf]
  | cons c t ih =>
    have hstep : saveCabinets db (c :: t) = saveCabinets (upsertCabinet db c) t := by
      simp [saveCabinets]
    rw [hstep, ih (upsertCabinet db c)]
    by_cases hmem : id ∈ idsOf t
    · have hmem' : id ∈ idsOf (c :: t) := by
        simp only [idsOf, List.map_cons, List.mem_cons]
        exact Or.inr hmem
      simp only [hmem, hmem', if_true]
    · by_cases hc : id = c.business_id
      · simp [hmem, idsOf, hc, countId_upsert]
      · have : ¬ id ∈ idsOf (c :: t) := by
          simp only [idsOf, List.map_cons, List.mem_cons]
          rintro (h | h)
          · exact hc h
          · exact hmem h
        simp [hmem, this, countId_upsert, hc]

/-- Last entry of a call list holding a given id, i.e. the value the final
executemany write for that id carries. -/
def lastEntry (l : List Cabinet) (id : String) : Option Cabinet :=
  lookupCab (saveCabinets [] l) id

lemma lastEntry_eq_lookup_self (l : List Cabinet) (id : String) :
    lastEntry l id = lookupCab (saveCabinets [] l) id := rfl

/-! ## Claims C1, C8, C9 -/

/-- **C1.** For every context `c` and item `i`, any number of
`recordCompletion`/`add_processed` calls, in any order and across any number
of runs (modelled as an arbitrary op list applied to a table satisfying the
primary-key invariant), leaves the table satisfying "at most one row per
key", and once `(c,i)` has been inserted at least once (or was already
present) exactly one row for `(c,i)` is stored. -/
theorem add_processed_idempotent_invariant
    (db ops : List PRow) (c s : String) (hinv : countKey db c s ≤ 1) :
    countKey (applyAdds db ops) c s ≤ 1 ∧
      (((c, s) ∈ ops ∨ (c, s) ∈ db) → countKey (applyAdds db ops) c s = 1) :=
  applyAdds_countKey ops db c s hinv

/-- Witness for C1: two redundant inserts of `("77","A1")` into an empty
table leave exactly one row. -/
theorem add_processed_idempotent_invariant_witness :
    countKey (applyAdds [] [("77", "A1"), ("77", "A1")]) "77" "A1" ≤ 1 ∧
      ((("77", "A1") ∈ [("77", "A1"), ("77", "A1")] ∨ (("77", "A1") : PRow) ∈ ([] : List PRow)) →
        countKey (applyAdds [] [("77", "A1"), ("77", "A1")]) "77" "A1" = 1) :=
  add_processed_idempotent_invariant [] [("77", "A1"), ("77", "A1")] "77" "A1" (by decide)

/-- **C8.** Two consecutive `save_cabinets` calls: afterwards every id that
was ever saved has exactly one row; an id saved by the latest call carries
that call's (last) entry; an id absent from the latest call keeps exactly
the row it had after the first call (retained, never purged). -/
theorem save_cabinets_upsert (db l1 l2 : List Cabinet) (id : String)
    (hinv : countId db id ≤ 1) :
    countId (saveCabinets (saveCabinets db l1) l2) id ≤ 1 ∧
      ((id ∈ idsOf l1 ∨ id ∈ idsOf l2) →
        countId (saveCabinets (saveCabinets db l1) l2) id = 1) ∧
      (id ∈ idsOf l2 →
        lookupCab (saveCabinets (saveCabinets db l1) l2) id = lastEntry l2 id) ∧
      (id ∉ idsOf l2 →
        lookupCab (saveCabinets (saveCabinets db l1) l2) id =
          lookupCab (saveCabinets db l1) id) := by
  refine ⟨?_, ?_, ?_, ?_⟩
  · rw [countId_saveCabinets, countId_saveCabinets]
    by_cases h2 : id ∈ idsOf l2
    · simp [h2]
    · by_cases h1 : id ∈ idsOf l1 <;> simp [h1, h2, hinv]
  · rw [countId_saveCabinets, countId_saveCabinets]
    rintro (h | h)
    · by_cases h2 : id ∈ idsOf l2 <;> simp [h, h2]
    · simp [h]
  · intro h2
    rw [lookupCab_saveCabinets, lastEntry_eq_lookup_self]
    simp [h2]
  · intro h2
    rw [lookupCab_saveCabinets]
    simp [h2]

/-- Witness for C8: save `id=1 (name A)` then `id=1 (name B), id=2`: one row
per id, id 1 holds name B. -/
theorem save_cabinets_upsert_witness :
    countId (saveCabinets (saveCabinets [] [⟨"1", "A", "lA"⟩]) [⟨"1", "B", "lB"⟩, ⟨"2", "C", "lC"⟩]) "1" ≤ 1 ∧
      (("1" ∈ idsOf [(⟨"1", "A", "lA"⟩ : Cabinet)] ∨ "1" ∈ idsOf [(⟨"1", "B", "lB"⟩ : Cabinet), ⟨"2", "C", "lC"⟩]) →
        countId (saveCabinets (saveCabinets [] [⟨"1", "A", "lA"⟩]) [⟨"1", "B", "lB"⟩, ⟨"2", "C", "lC"⟩]) "1" = 1) ∧
      ("1" ∈ idsOf [(⟨"1", "B", "lB"⟩ : Cabinet), ⟨"2", "C", "lC"⟩] →
        lookupCab (saveCabinets (saveCabinets [] [⟨"1", "A", "lA"⟩]) [⟨"1", "B", "lB"⟩, ⟨"2", "C", "lC"⟩]) "1" =
          lastEntry [(⟨"1", "B", "lB"⟩ : Cabinet), ⟨"2", "C", "lC"⟩] "1") ∧
      ("1" ∉ idsOf [(⟨"1", "B", "lB"⟩ : Cabinet), ⟨"2", "C", "lC"⟩] →
        lookupCab (saveCabinets (saveCabinets [] [⟨"1", "A", "lA"⟩]) [⟨"1", "B", "lB"⟩, ⟨"2", "C", "lC"⟩]) "1" =
          lookupCab (saveCabinets [] [⟨"1", "A", "lA"⟩]) "1") :=
  save_cabinets_upsert [] [⟨"1", "A", "lA"⟩] [⟨"1", "B", "lB"⟩, ⟨"2", "C", "lC"⟩] "1" (by decide)

/-- **C9.** After `add_processed(c,i)`, `is_processed(c,i)` is true and stays
true after any further sequence of `add_processed` / `bulk_mark_processed`
calls for any pairs; more generally the completed set only grows. -/
theorem is_processed_roundtrip_monotone (db : List PRow) (c s : String)
    (ops : List StoreOp) :
    isProcessed (applyOps (addProcessed db c s) ops) c s = true ∧
      (∀ p : PRow, p ∈ db → p ∈ applyOps db ops) := by
  constructor
  · have h := mem_applyOps_of_mem (addProcessed db c s) ops (mem_addProcessed_self db c s)
    simpa [isProcessed] using h
  · intro p hp
    exact mem_applyOps_of_mem db ops hp

/-! ## The per-item pipeline: `YandexMarketPhotoReuploadeDriver.process_sku`
(lines 332-457)

`processSku` mirrors the Python control flow over a `PageEnv` oracle that
fixes the outcome of every page-level operation.  Every `ensure_no_captcha`
call site has its own oracle field (`_is_captcha` may answer differently at
each point in time); a raise there aborts the function with outcome
`raisedCaptcha` (the `RuntimeError` the worker catches).  The three
operations inside the `while attempts < RETRY_COUNT` loop are indexed by the
0-based iteration number.  Exception message texts interpolated into log
lines are elided; each modelled log line keeps the `[sku] prefix + message`
shape of the source.  `driver.get` (navigation, line 335) is not wrapped in
a try in the source, so it has no failure outcome here: an exception there
would propagate as a fatal session failure, outside the boolean contract.
The function also returns the `trace` of pipeline steps it executed, in
order, used to state that no step runs twice. -/

/-- The pipeline steps of one `process_sku` attempt. -/
inductive Step
| navigate
| waitPreviews
| clickPreview
| waitModal
| extractSrc
| download
| uploadTrigger
| submitFile
| dismissGallery
| clickSave
deriving DecidableEq, Fintype

/-- Outcome of the big-image extraction block (lines 376-389). -/
inductive ExtractO
| extractRaises
| noBigImages
| noSrc
| okSrc (src : String)
deriving DecidableEq

/-- Outcome of waiting for the file inputs (line 414): timeout, or the
number of `input[type=file]` elements found. -/
inductive FileInputsO
| timeoutFI
| foundFI (n : Nat)
deriving DecidableEq

/-- Outcome of the save-button block (lines 442-451). -/
inductive SaveO
| okSave
| timeoutSave
| excSave
deriving DecidableEq

/-- Oracle for the page-level operations one `process_sku` call performs. -/
structure PageEnv where
  captchaAtEntry : Bool
  previewOk : Bool
  captchaAfterPreviewFail : Bool
  captchaAfterPreview : Bool
  clickOk : Nat → Bool
  captchaAfterClickFail : Nat → Bool
  modalOk : Nat → Bool
  captchaAfterModalFail : Nat → Bool
  extract : ExtractO
  downloadOk : Bool
  triggerOk : Bool
  fileInputs : FileInputsO
  sendOk : Bool
  captchaAfterUpload : Bool
  closeOk : Bool
  save : SaveO
  captchaAtEnd : Bool

/-- Result of `process_sku`: the `RuntimeError` raised by
`ensure_no_captcha`, or the returned boolean. -/
inductive PipeOutcome
| raisedCaptcha
| ret (b : Bool)
deriving DecidableEq

/-- One `process_sku` run: result, emitted log lines, executed steps. -/
structure PipeRun where
  outcome : PipeOutcome
  log : List String
  trace : List Step
deriving DecidableEq

/-- The `f"[{sku}] ..."` log line shape used throughout `process_sku`. -/
def mkMsg (sku m : String) : String := "[" ++ sku ++ "] " ++ m

def msgNoPreview (sku : String) : String := mkMsg sku "Нет превью изображений на карточке"

def msgClickFail (sku : String) : String := mkMsg sku "Не удалось кликнуть превью"

def msgNoModal (sku : String) : String := mkMsg sku "Модальное окно с картинками не открылось"

def msgExtractErr (sku : String) : String := mkMsg sku "Ошибка получения изображения"

def msgNoBig (sku : String) : String := mkMsg sku "Не найдено больших изображений в модалке"

def msgNoSrc (sku : String) : String := mkMsg sku "Не удалось получить src последнего изображения"

def msgDownloaded (sku : String) : String := mkMsg sku "Изображение скачано"

def msgDownloadFail (sku : String) : String := mkMsg sku "Не удалось скачать изображение"

def msgTriggerFail (sku : String) : String := mkMsg sku "Не удалось кликнуть кнопку загрузки"

def msgFileSent (sku : String) : String := mkMsg sku "Файл отправлен на загрузку"

def msgNoFileInput (sku : String) : String := mkMsg sku "Не найден input[type=file] для загрузки"

def msgSendFail (sku : String) : String := mkMsg sku "Ошибка отправки файла"

def msgNoSaveBtn (sku : String) : String := mkMsg sku "Кнопка Сохранить не найдена"

def msgSaveClickFail (sku : String) : String := mkMsg sku "Ошибка клика по Сохранить"

def msgSaveInit (sku : String) : String := mkMsg sku "Сохранение инициировано (ожидаем успешный ответ)"

/-- Position of each step in the fixed pipeline order. -/
def stepIdx : Step → Nat
  | .navigate => 0
  | .waitPreviews => 1
  | .clickPreview => 2
  | .waitModal => 3
  | .extractSrc => 4
  | .download => 5
  | .uploadTrigger => 6
  | .submitFile => 7
  | .dismissGallery => 8
  | .clickSave => 9

/-- The message bodies a step logs when its failure aborts the attempt
(the text after the `[sku] ` prefix, source lines 341, 369/372, 380-388,
398, 407, 423/426, 447/450).  The sets are pairwise disjoint, so the
message in the log line identifies the failed step. -/
def stepFailMsgs : Step → List String
  | .waitPreviews => ["Нет превью изображений на карточке"]
  | .waitModal => ["Модальное окно с картинками не открылось"]
  | .extractSrc => ["Ошибка получения изображения", "Не найдено больших изображений в модалке",
      "Не удалось получить src последнего изображения"]
  | .download => ["Не удалось скачать изображение"]
  | .uploadTrigger => ["Не удалось кликнуть кнопку загрузки"]
  | .submitFile => ["Не найден input[type=file] для загрузки", "Ошибка отправки файла"]
  | .clickSave => ["Кнопка Сохранить не найдена", "Ошибка клика по Сохранить"]
  | _ => []

/-- Exit of the `while attempts < RETRY_COUNT and not success` loop
(lines 347-373): `ensure_no_captcha` raised, `return False` executed, or
control fell past the loop with the final value of `success`. -/
inductive GalleryExit
| raisedG (log : List String) (trace : List Step)
| failedG (log : List String) (trace : List Step)
| proceedG (success : Bool) (log : List String) (trace : List Step)
deriving DecidableEq

/-- The gallery-opening loop, lines 347-373.  `remaining` is the structural
counter `RETRY_COUNT - attempts` (the loop guard `attempts < RETRY_COUNT`
becomes `remaining > 0`); the loop body either raises, executes
`return False` (the `if not success` branch), or sets `success` and loops
back to the guard.  The iteration index passed to the oracles is the
pre-increment `attempts` value `RETRY_COUNT - remaining`. -/
def galleryLoop (env : PageEnv) (sku : String) :
    Nat → Bool → List String → List Step → GalleryExit
  | 0, success, log, tr => .proceedG success log tr
  | remaining + 1, success, log, tr =>
    if success then .proceedG success log tr
    else
      let iter := RETRY_COUNT - (remaining + 1)
      let tr1 := tr ++ [Step.clickPreview]
      let log1 := if env.clickOk iter then log else log ++ [msgClickFail sku]
      if env.clickOk iter = false ∧ env.captchaAfterClickFail iter = true then
        .raisedG log1 tr1
      else
        let tr2 := tr1 ++ [Step.waitModal]
        if env.modalOk iter then galleryLoop env sku remaining true log1 tr2
        else
          let log2 := log1 ++ [msgNoModal sku]
          if env.captchaAfterModalFail iter = true then .raisedG log2 tr2
          else .failedG (log2 ++ [msgNoModal sku]) tr2

/-- The tail of `process_sku` after the gallery modal is (supposedly) open:
extraction of the last big image (lines 375-389), download (391-399), the
upload trigger (401-408), the file inputs and `send_keys` (410-427), the
`ensure_no_captcha` after the upload pause (430-431), the ignored
dismiss-gallery click (433-439), the save button (441-451) and the final
`ensure_no_captcha` plus success log (453-457).  `log` and `tr` are the log
lines and step trace accumulated so far. -/
def pipelineTail (env : PageEnv) (sku : String) (log : List String) (tr : List Step) : PipeRun :=
  match env.extract with
  | .extractRaises => ⟨.ret false, log ++ [msgExtractErr sku], tr ++ [Step.extractSrc]⟩
  | .noBigImages => ⟨.ret false, log ++ [msgNoBig sku], tr ++ [Step.extractSrc]⟩
  | .noSrc => ⟨.ret false, log ++ [msgNoSrc sku], tr ++ [Step.extractSrc]⟩
  | .okSrc _ =>
    if env.downloadOk = false then
      ⟨.ret false, log ++ [msgDownloadFail sku], tr ++ [Step.extractSrc, Step.download]⟩ else
    if env.triggerOk = false then
      ⟨.ret false, log ++ [msgDownloaded sku, msgTriggerFail sku],
        tr ++ [Step.extractSrc, Step.download, Step.uploadTrigger]⟩ else
    match env.fileInputs with
    | .timeoutFI =>
      ⟨.ret false, log ++ [msgDownloaded sku, msgNoFileInput sku],
        tr ++ [Step.extractSrc, Step.download, Step.uploadTrigger, Step.submitFile]⟩
    | .foundFI n =>
      if n < 2 then
        ⟨.ret false, log ++ [msgDownloaded sku, msgSendFail sku],
          tr ++ [Step.extractSrc, Step.download, Step.uploadTrigger, Step.submitFile]⟩ else
      if env.sendOk = false then
        ⟨.ret false, log ++ [msgDownloaded sku, msgSendFail sku],
          tr ++ [Step.extractSrc, Step.download, Step.uploadTrigger, Step.submitFile]⟩ else
      if env.captchaAfterUpload then
        ⟨.raisedCaptcha, log ++ [msgDownloaded sku, msgFileSent sku],
          tr ++ [Step.extractSrc, Step.download, Step.uploadTrigger, Step.submitFile]⟩ else
      match env.save with
      | .timeoutSave =>
        ⟨.ret false, log ++ [msgDownloaded sku, msgFileSent sku, msgNoSaveBtn sku],
          tr ++ [Step.extractSrc, Step.download, Step.uploadTrigger, Step.submitFile,
            Step.dismissGallery, Step.clickSave]⟩
      | .excSave =>
        ⟨.ret false, log ++ [msgDownloaded sku, msgFileSent sku, msgSaveClickFail sku],
          tr ++ [Step.extractSrc, Step.download, Step.uploadTrigger, Step.submitFile,
            Step.dismissGallery, Step.clickSave]⟩
      | .okSave =>
        if env.captchaAtEnd then
          ⟨.raisedCaptcha, log ++ [msgDownloaded sku, msgFileSent sku],
            tr ++ [Step.extractSrc, Step.download, Step.uploadTrigger, Step.submitFile,
              Step.dismissGallery, Step.clickSave]⟩
        else
          ⟨.ret true, log ++ [msgDownloaded sku, msgFileSent sku, msgSaveInit sku],
            tr ++ [Step.extractSrc, Step.download, Step.uploadTrigger, Step.submitFile,
              Step.dismissGallery, Step.clickSave]⟩

/-- `process_sku` (lines 332-457): entry `ensure_no_captcha` (333),
navigation (335), the preview wait (337-343), the post-preview
`ensure_no_captcha` (345), the gallery loop (347-373) and, once the modal
is open, the `pipelineTail`. -/
def processSku (env : PageEnv) (sku : String) : PipeRun :=
  if env.captchaAtEntry then ⟨.raisedCaptcha, [], []⟩ else
  if env.previewOk = false then
    if env.captchaAfterPreviewFail then
      ⟨.raisedCaptcha, [msgNoPreview sku], [Step.navigate, Step.waitPreviews]⟩
    else ⟨.ret false, [msgNoPreview sku], [Step.navigate, Step.waitPreviews]⟩
  else
  if env.captchaAfterPreview then ⟨.raisedCaptcha, [], [Step.navigate, Step.waitPreviews]⟩ else
  match galleryLoop env sku RETRY_COUNT false [] [Step.navigate, Step.waitPreviews] with
  | .raisedG log tr => ⟨.raisedCaptcha, log, tr⟩
  | .failedG log tr => ⟨.ret false, log, tr⟩
  | .proceedG _ log tr => pipelineTail env sku log tr

/-- Witness for C9: concrete add, bulk insert on top, still processed. -/
theorem is_processed_roundtrip_monotone_witness :
    isProcessed (applyOps (addProcessed [("9", "Z")] "77" "A1") [StoreOp.bulkOp "77" ["B", "C"]]) "77" "A1" = true ∧
      (∀ p : PRow, p ∈ ([(("9", "Z") : PRow)] : List PRow) →
        p ∈ applyOps [(("9", "Z") : PRow)] [StoreOp.bulkOp "77" ["B", "C"]]) :=
  is_processed_roundtrip_monotone [("9", "Z")] "77" "A1" [StoreOp.bulkOp "77" ["B", "C"]]

/-! ### Pipeline lemmas and claims C5, C6 -/

/-- The gallery loop entered from `attempts = 0`, `success = False` always
exits during its first iteration: the body either raises, returns `False`,
or sets `success` so that the guard fails at the next check. -/
lemma galleryLoop_eval (env : PageEnv) (sku : String) (log : List String) (tr : List Step) :
    galleryLoop env sku RETRY_COUNT false log tr =
      if env.clickOk 0 = false ∧ env.captchaAfterClickFail 0 = true then
        .raisedG (log ++ [msgClickFail sku]) (tr ++ [Step.clickPreview])
      else if env.modalOk 0 then
        .proceedG true (if env.clickOk 0 then log else log ++ [msgClickFail sku])
          (tr ++ [Step.clickPreview, Step.waitModal])
      else if env.captchaAfterModalFail 0 = true then
        .raisedG ((if env.clickOk 0 then log else log ++ [msgClickFail sku]) ++ [msgNoModal sku])
          (tr ++ [Step.clickPreview, Step.waitModal])
      else
        .failedG ((if env.clickOk 0 then log else log ++ [msgClickFail sku]) ++
            [msgNoModal sku, msgNoModal sku])
          (tr ++ [Step.clickPreview, Step.waitModal]) := by
  by_cases hc : env.clickOk 0 <;> by_cases hcc : env.captchaAfterClickFail 0 <;>
    by_cases hm : env.modalOk 0 <;> by_cases hmm : env.captchaAfterModalFail 0 <;>
    simp [galleryLoop, RETRY_COUNT, hc, hcc, hm, hmm]

/-- Helper: the step trace of a `pipelineTail` call entered with the steps
executed so far has no duplicates. -/
lemma pipelineTail_nodup (env : PageEnv) (sku : String) (log : List String) :
    (pipelineTail env sku log
      [Step.navigate, Step.waitPreviews, Step.clickPreview, Step.waitModal]).trace.Nodup := by
  unfold pipelineTail
  repeat' split
  all_goals simp

/-- Helper: the `pipelineTail` trace starts with the steps accumulated so
far. -/
lemma pipelineTail_head (env : PageEnv) (sku : String) (log : List String) :
    (pipelineTail env sku log
      [Step.navigate, Step.waitPreviews, Step.clickPreview,
        Step.waitModal]).trace.head?.getD Step.navigate = Step.navigate := by
  unfold pipelineTail
  repeat' split
  all_goals simp

/-- Helper: exact success condition of the pipeline tail. -/
lemma pipelineTail_ret_true_iff (env : PageEnv) (sku : String) (log : List String)
    (tr : List Step) :
    (pipelineTail env sku log tr).outcome = .ret true ↔
      ((∃ u, env.extract = ExtractO.okSrc u) ∧ env.downloadOk = true ∧ env.triggerOk = true ∧
       (∃ n, env.fileInputs = FileInputsO.foundFI n ∧ 2 ≤ n) ∧ env.sendOk = true ∧
       env.captchaAfterUpload = false ∧ env.save = SaveO.okSave ∧ env.captchaAtEnd = false) := by
  unfold pipelineTail
  repeat' split
  all_goals simp_all

/-- Helper: a failing pipeline tail stops at the failed step — the trace
ends at a step `s`, no step after `s` was executed — and its final log line
is `[sku] ` followed by one of the failure messages of `s`. -/
lemma pipelineTail_ret_false_info (env : PageEnv) (sku : String) (log : List String) :
    (pipelineTail env sku log
        [Step.navigate, Step.waitPreviews, Step.clickPreview, Step.waitModal]).outcome =
          .ret false →
      ∃ s m,
        (pipelineTail env sku log
          [Step.navigate, Step.waitPreviews, Step.clickPreview,
            Step.waitModal]).trace.getLast? = some s ∧
        m ∈ stepFailMsgs s ∧
        (pipelineTail env sku log
          [Step.navigate, Step.waitPreviews, Step.clickPreview,
            Step.waitModal]).log.getLast? = some (mkMsg sku m) ∧
        ∀ s2 ∈ (pipelineTail env sku log
          [Step.navigate, Step.waitPreviews, Step.clickPreview, Step.waitModal]).trace,
          stepIdx s2 ≤ stepIdx s := by
  unfold pipelineTail
  repeat' split
  · intro h
    exact ⟨Step.extractSrc, "Ошибка получения изображения", rfl, by decide,
      by simp [msgExtractErr, mkMsg], by simp [stepIdx]⟩
  · intro h
    exact ⟨Step.extractSrc, "Не найдено больших изображений в модалке", rfl, by decide,
      by simp [msgNoBig, mkMsg], by simp [stepIdx]⟩
  · intro h
    exact ⟨Step.extractSrc, "Не удалось получить src последнего изображения", rfl, by decide,
      by simp [msgNoSrc, mkMsg], by simp [stepIdx]⟩
  · intro h
    exact ⟨Step.download, "Не удалось скачать изображение", rfl, by decide,
      by simp [msgDownloadFail, mkMsg], by simp [stepIdx]⟩
  · intro h
    exact ⟨Step.uploadTrigger, "Не удалось кликнуть кнопку загрузки", rfl, by decide,
      by simp [msgDownloaded, msgTriggerFail, mkMsg], by simp [stepIdx]⟩
  · intro h
    exact ⟨Step.submitFile, "Не найден input[type=file] для загрузки", rfl, by decide,
      by simp [msgDownloaded, msgNoFileInput, mkMsg], by simp [stepIdx]⟩
  · intro h
    exact ⟨Step.submitFile, "Ошибка отправки файла", rfl, by decide,
      by simp [msgDownloaded, msgSendFail, mkMsg], by simp [stepIdx]⟩
  · intro h
    exact ⟨Step.submitFile, "Ошибка отправки файла", rfl, by decide,
      by simp [msgDownloaded, msgSendFail, mkMsg], by simp [stepIdx]⟩
  · intro h
    simp at h
  · intro h
    exact ⟨Step.clickSave, "Кнопка Сохранить не найдена", rfl, by decide,
      by simp [msgDownloaded, msgFileSent, msgNoSaveBtn, mkMsg], by simp [stepIdx]⟩
  · intro h
    exact ⟨Step.clickSave, "Ошибка клика по Сохранить", rfl, by decide,
      by simp [msgDownloaded, msgFileSent, msgSaveClickFail, mkMsg], by simp [stepIdx]⟩
  · intro h
    simp at h
  · intro h
    simp at h

/-- Helper: the step trace of one `process_sku` call has no duplicates. -/
lemma processSku_trace_nodup (env : PageEnv) (sku : String) :
    (processSku env sku).trace.Nodup := by
  unfold processSku
  by_cases h1 : env.captchaAtEntry
  · simp [h1]
  rw [if_neg h1]
  by_cases h2 : env.previewOk = false
  · rw [if_pos h2]
    by_cases h3 : env.captchaAfterPreviewFail <;> simp [h3]
  rw [if_neg h2]
  by_cases h4 : env.captchaAfterPreview
  · simp [h4]
  rw [if_neg h4, galleryLoop_eval]
  by_cases hA : env.clickOk 0 = false ∧ env.captchaAfterClickFail 0 = true
  · rw [if_pos hA]
    simp
  rw [if_neg hA]
  by_cases hm : env.modalOk 0
  · rw [if_pos hm]
    exact pipelineTail_nodup env sku _
  rw [if_neg hm]
  by_cases hmm : env.captchaAfterModalFail 0 = true
  · rw [if_pos hmm]
    simp
  · rw [if_neg hmm]
    simp

/-- Helper: a nonempty step trace starts with the navigation step. -/
lemma processSku_trace_head (env : PageEnv) (sku : String) :
    (processSku env sku).trace.head?.getD Step.navigate = Step.navigate := by
  unfold processSku
  by_cases h1 : env.captchaAtEntry
  · simp [h1]
  rw [if_neg h1]
  by_cases h2 : env.previewOk = false
  · rw [if_pos h2]
    by_cases h3 : env.captchaAfterPreviewFail <;> simp [h3]
  rw [if_neg h2]
  by_cases h4 : env.captchaAfterPreview
  · simp [h4]
  rw [if_neg h4, galleryLoop_eval]
  by_cases hA : env.clickOk 0 = false ∧ env.captchaAfterClickFail 0 = true
  · rw [if_pos hA]
    simp
  rw [if_neg hA]
  by_cases hm : env.modalOk 0
  · rw [if_pos hm]
    exact pipelineTail_head env sku _
  rw [if_neg hm]
  by_cases hmm : env.captchaAfterModalFail 0 = true
  · rw [if_pos hmm]
    simp
  · rw [if_neg hmm]
    simp

/-- Helper: exact characterisation of when `process_sku` returns `True`.
The dismiss-gallery outcome `closeOk` does not occur in the condition:
lines 434-439 swallow its failure. -/
lemma processSku_ret_true_iff (env : PageEnv) (sku : String) :
    (processSku env sku).outcome = .ret true ↔
      (env.captchaAtEntry = false ∧ env.previewOk = true ∧ env.captchaAfterPreview = false ∧
       (env.clickOk 0 = true ∨ env.captchaAfterClickFail 0 = false) ∧ env.modalOk 0 = true ∧
       (∃ u, env.extract = ExtractO.okSrc u) ∧ env.downloadOk = true ∧ env.triggerOk = true ∧
       (∃ n, env.fileInputs = FileInputsO.foundFI n ∧ 2 ≤ n) ∧ env.sendOk = true ∧
       env.captchaAfterUpload = false ∧ env.save = SaveO.okSave ∧ env.captchaAtEnd = false) := by
  unfold processSku
  by_cases h1 : env.captchaAtEntry
  · simp [h1]
  rw [if_neg h1]
  by_cases h2 : env.previewOk = false
  · rw [if_pos h2]
    by_cases h3 : env.captchaAfterPreviewFail <;> simp [h2, h3]
  rw [if_neg h2]
  by_cases h4 : env.captchaAfterPreview
  · simp [h4]
  rw [if_neg h4, galleryLoop_eval]
  by_cases hA : env.clickOk 0 = false ∧ env.captchaAfterClickFail 0 = true
  · rw [if_pos hA]
    simp [hA.1, hA.2]
  rw [if_neg hA]
  have hA2 : env.clickOk 0 = true ∨ env.captchaAfterClickFail 0 = false := by
    cases hcv : env.clickOk 0
    · cases hccv : env.captchaAfterClickFail 0
      · exact Or.inr rfl
      · exact absurd ⟨hcv, hccv⟩ hA
    · exact Or.inl rfl
  by_cases hm : env.modalOk 0
  · rw [if_pos hm]
    simp [pipelineTail_ret_true_iff, h1, h2, h4, hm, hA2]
  rw [if_neg hm]
  by_cases hmm : env.captchaAfterModalFail 0 = true
  · rw [if_pos hmm]
    simp [hm]
  · rw [if_neg hmm]
    simp [hm]

/-- Helper: whenever `process_sku` returns `False`, the attempt stopped at
the failed step — the trace ends at a step `s` and no step after `s` in
the pipeline order was executed — and the final log line is `[sku] `
followed by one of the failure messages of `s`. -/
lemma processSku_ret_false_info (env : PageEnv) (sku : String) :
    (processSku env sku).outcome = .ret false →
      ∃ s m, (processSku env sku).trace.getLast? = some s ∧
        m ∈ stepFailMsgs s ∧
        (processSku env sku).log.getLast? = some (mkMsg sku m) ∧
        ∀ s2 ∈ (processSku env sku).trace, stepIdx s2 ≤ stepIdx s := by
  unfold processSku
  by_cases h1 : env.captchaAtEntry
  · simp [h1]
  rw [if_neg h1]
  by_cases h2 : env.previewOk = false
  · rw [if_pos h2]
    by_cases h3 : env.captchaAfterPreviewFail
    · simp [h3]
    · rw [if_neg h3]
      intro _
      refine ⟨Step.waitPreviews, "Нет превью изображений на карточке", rfl, by decide,
        rfl, ?_⟩
      simp [stepIdx]
  rw [if_neg h2]
  by_cases h4 : env.captchaAfterPreview
  · simp [h4]
  rw [if_neg h4, galleryLoop_eval]
  by_cases hA : env.clickOk 0 = false ∧ env.captchaAfterClickFail 0 = true
  · rw [if_pos hA]
    simp
  rw [if_neg hA]
  by_cases hm : env.modalOk 0
  · rw [if_pos hm]
    exact pipelineTail_ret_false_info env sku _
  rw [if_neg hm]
  by_cases hmm : env.captchaAfterModalFail 0 = true
  · rw [if_pos hmm]
    simp
  · rw [if_neg hmm]
    intro _
    refine ⟨Step.waitModal, "Модальное окно с картинками не открылось", rfl, by decide,
      ?_, ?_⟩
    · simp [msgNoModal, mkMsg]
    · simp [stepIdx]

/-- The page oracle for a fully successful attempt in which only the
dismiss-gallery click (lines 434-439) fails. -/
def envC5 : PageEnv where
  captchaAtEntry := false
  previewOk := true
  captchaAfterPreviewFail := false
  captchaAfterPreview := false
  clickOk := fun _ => true
  captchaAfterClickFail := fun _ => false
  modalOk := fun _ => true
  captchaAfterModalFail := fun _ => false
  extract := ExtractO.okSrc "//avatars.example/img"
  downloadOk := true
  triggerOk := true
  fileInputs := FileInputsO.foundFI 2
  sendOk := true
  captchaAfterUpload := false
  closeOk := false
  save := SaveO.okSave
  captchaAtEnd := false

/-- **C5 counterexample.** An attempt in which the dismiss-gallery step
fails (`closeOk = false`) but every other step succeeds still executes the
save step and returns success — refuting both "the failure of any step
aborts all remaining steps" and "returns success only if every step
(..., dismiss gallery, ...) succeeds" for the dismiss-gallery step. -/
theorem process_sku_dismiss_ignored_counterexample :
    envC5.closeOk = false ∧ (processSku envC5 "S1").outcome = .ret true ∧
      Step.dismissGallery ∈ (processSku envC5 "S1").trace ∧
      Step.clickSave ∈ (processSku envC5 "S1").trace := by
  refine ⟨rfl, rfl, ?_, ?_⟩ <;> decide

/-- **C5 (amended).** Failure of any step other than gallery dismissal
aborts all remaining steps of the attempt: the executed-step trace ends at
the failed step `s` and contains no step after `s` in the pipeline order.
The attempt then returns failure with a final log line naming the item and
the failed step: the line is `[sku] ` followed by one of the failure
messages of `s`, and the per-step message sets are pairwise disjoint, so
the line identifies `s`.  The attempt returns success exactly when preview
wait, gallery open, source extraction, download, upload trigger, file
submission and save all succeed with no captcha raised — only the
dismiss-gallery outcome is ignored and does not affect the result. -/
theorem process_sku_failure_aborts (env : PageEnv) (sku : String) :
    ((processSku env sku).outcome = .ret true ↔
      (env.captchaAtEntry = false ∧ env.previewOk = true ∧ env.captchaAfterPreview = false ∧
       (env.clickOk 0 = true ∨ env.captchaAfterClickFail 0 = false) ∧ env.modalOk 0 = true ∧
       (∃ u, env.extract = ExtractO.okSrc u) ∧ env.downloadOk = true ∧ env.triggerOk = true ∧
       (∃ n, env.fileInputs = FileInputsO.foundFI n ∧ 2 ≤ n) ∧ env.sendOk = true ∧
       env.captchaAfterUpload = false ∧ env.save = SaveO.okSave ∧ env.captchaAtEnd = false)) ∧
    ((processSku env sku).outcome = .ret false →
      ∃ s m, (processSku env sku).trace.getLast? = some s ∧
        m ∈ stepFailMsgs s ∧
        (processSku env sku).log.getLast? = some (mkMsg sku m) ∧
        ∀ s2 ∈ (processSku env sku).trace, stepIdx s2 ≤ stepIdx s) ∧
    (∀ s s2 : Step, (∃ m ∈ stepFailMsgs s, m ∈ stepFailMsgs s2) → s = s2) :=
  ⟨processSku_ret_true_iff env sku, processSku_ret_false_info env sku, by decide⟩

/-- Witness for C5 at the concrete oracle `envC5`. -/
theorem process_sku_failure_aborts_witness :
    ((processSku envC5 "S1").outcome = .ret true ↔
      (envC5.captchaAtEntry = false ∧ envC5.previewOk = true ∧ envC5.captchaAfterPreview = false ∧
       (envC5.clickOk 0 = true ∨ envC5.captchaAfterClickFail 0 = false) ∧ envC5.modalOk 0 = true ∧
       (∃ u, envC5.extract = ExtractO.okSrc u) ∧ envC5.downloadOk = true ∧ envC5.triggerOk = true ∧
       (∃ n, envC5.fileInputs = FileInputsO.foundFI n ∧ 2 ≤ n) ∧ envC5.sendOk = true ∧
       envC5.captchaAfterUpload = false ∧ envC5.save = SaveO.okSave ∧ envC5.captchaAtEnd = false)) ∧
    ((processSku envC5 "S1").outcome = .ret false →
      ∃ s m, (processSku envC5 "S1").trace.getLast? = some s ∧
        m ∈ stepFailMsgs s ∧
        (processSku envC5 "S1").log.getLast? = some (mkMsg "S1" m) ∧
        ∀ s2 ∈ (processSku envC5 "S1").trace, stepIdx s2 ≤ stepIdx s) ∧
    (∀ s s2 : Step, (∃ m ∈ stepFailMsgs s, m ∈ stepFailMsgs s2) → s = s2) :=
  process_sku_failure_aborts envC5 "S1"

/-- **C6.** One `process_sku` invocation never retries a step internally:
every pipeline step occurs at most once in the executed-step trace, and the
trace (when any step ran at all) begins with the navigation step — so a
retry can only be a fresh invocation restarting from navigation. -/
theorem process_sku_steps_at_most_once (env : PageEnv) (sku : String) :
    (∀ s : Step, (processSku env sku).trace.count s ≤ 1) ∧
      (processSku env sku).trace.head?.getD Step.navigate = Step.navigate := by
  refine ⟨fun s => ?_, processSku_trace_head env sku⟩
  exact List.nodup_iff_count_le_one.mp (processSku_trace_nodup env sku) s

/-! ## The worker thread: `ProcessWorker.run` (lines 463-533)

`workerRun` mirrors the thread body over a `WorkerEnv` oracle.  The
`process_sku` call inside the per-item retry loop is abstracted by an
`AttemptSpec` per (item index, attempt number): its pre-check captcha
answer, its outcome (`return b`, the captcha `RuntimeError`, or any other
exception reaching `except Exception`), the ticks it consumes and the log
lines it emits through the shared `log_signal` (its internals are modelled
separately by `processSku`).  Time is a `Nat` number of 0.5-second ticks:
`time.sleep(0.5)` is one tick, `time.sleep(RETRY_DELAY)` is
`2 * RETRY_DELAY = 10` ticks.  The cross-thread flags are modelled by their
observable histories: `abortAt` is the tick from which `self._abort` reads
true (it is only ever set, line 533); `_pause_for_captcha` is set when a
`captcha_signal` is emitted (the GUI handler `on_captcha`, line 1014-1017)
and cleared at `resumeTick k` for the k-th captcha event of the run
(`resume_after_captcha`, line 529-530).  Storage faults are injected per
item index for the two storage calls `run` makes: `is_processed` (line 486,
only reached when `skip_processed` is set) and `add_processed` (line 517);
both sit outside any try block, so the model lets them crash the run. -/

/-- A Qt signal emission of the worker, stamped with its tick. -/
inductive WEvent
| logE (t : Nat) (msg : String)
| progressE (t : Nat) (done total : Nat)
| captchaE (t : Nat) (msg : String)
| finishedE (t : Nat)
deriving DecidableEq

/-- Outcome of one `process_sku` call as the worker sees it. -/
inductive PSkuOutcome
| retP (b : Bool)
| raiseCaptchaP
| raiseOtherP
deriving DecidableEq

/-- Oracle for one attempt of one item. -/
structure AttemptSpec where
  preCaptcha : Bool
  outcome : PSkuOutcome
  duration : Nat
  plogs : List String
deriving DecidableEq

/-- Oracle for a whole run. -/
structure WorkerEnv where
  attempt : Nat → Nat → AttemptSpec
  resumeTick : Nat → Nat
  abortAt : Option Nat
  isProcRaises : Nat → Bool
  addProcRaises : Nat → Bool

/-- Worker state: clock, `processed` table, emitted signals in order, and
the number of captcha events so far. -/
structure WState where
  t : Nat
  db : List PRow
  events : List WEvent
  k : Nat
deriving DecidableEq

/-- What `self._abort` reads at tick `t`. -/
def abortB (env : WorkerEnv) (t : Nat) : Bool :=
  match env.abortAt with
  | none => false
  | some a => decide (a ≤ t)

/-- The captcha-signal text of the pre-check (line 498); the quote marks
the source puts around the button name are elided. -/
def msgCaptchaPre : String :=
  "Обнаружена капча. Решите её в открытом браузере и нажмите Продолжить."

/-- The `RuntimeError` text raised by `ensure_no_captcha` (line 196),
re-emitted at line 509. -/
def msgCaptchaRaised : String :=
  "Обнаружена капча. Пожалуйста, решите её в открытом браузере и нажмите Продолжить."

def msgSkip (sku : String) : String := "Пропуск " ++ sku ++ " — уже обработан ранее"

def msgAttempt (sku : String) (n : Nat) : String :=
  "[" ++ sku ++ "] Попытка " ++ toString n ++ "/" ++ toString RETRY_COUNT

def msgSuccess (sku : String) : String := "[" ++ sku ++ "] УСПЕХ — отмечен как обработанный"

def msgFailAll (sku : String) : String :=
  "[" ++ sku ++ "] НЕ УДАЛОСЬ обработать после " ++ toString RETRY_COUNT ++ " попыток"

def msgWorkerErr (sku : String) : String := "[" ++ sku ++ "] Ошибка"

/-- Emit a log line (no time passes). -/
def pushLog (st : WState) (m : String) : WState :=
  { st with events := st.events ++ [WEvent.logE st.t m] }

/-- Emit the pipeline log lines of one `process_sku` call. -/
def pushLogs (st : WState) (ms : List String) : WState :=
  { st with events := st.events ++ ms.map (WEvent.logE st.t) }

/-- Emit a captcha signal. -/
def pushCaptcha (st : WState) (m : String) : WState :=
  { st with events := st.events ++ [WEvent.captchaE st.t m] }

/-- Emit a progress tuple. -/
def pushProgress (st : WState) (done total : Nat) : WState :=
  { st with events := st.events ++ [WEvent.progressE st.t done total] }

/-- `time.sleep` of `d` ticks. -/
def sleepT (st : WState) (d : Nat) : WState :=
  { st with t := st.t + d }

/-- The polling wait `while self._pause_for_captcha and not self._abort:
time.sleep(0.5)` (lines 500-501 and 510-511).  The pause flag reads true
from the emission until the resume tick `r`; `go` counts the at most
`r - t` remaining polls structurally. -/
def waitCaptchaGo (env : WorkerEnv) : Nat → Nat → Nat
  | 0, t => t
  | fuel + 1, t => if abortB env t then t else waitCaptchaGo env fuel (t + 1)

/-- Tick at which the captcha wait started at `t` with resume tick `r`
returns. -/
def waitCaptcha (env : WorkerEnv) (r t : Nat) : Nat :=
  waitCaptchaGo env (r - t) t

/-- Emit the captcha signal (which makes the GUI set the pause flag), then
poll until resume or abort; bumps the captcha-event counter. -/
def captchaPause (env : WorkerEnv) (st : WState) (m : String) : WState :=
  { pushCaptcha st m with
      k := st.k + 1,
      t := waitCaptcha env (env.resumeTick st.k) st.t }

/-- The retry loop of one item (lines 491-514):
`while attempts < RETRY_COUNT and not success and not self._abort`.
`remaining` is the structural counter `RETRY_COUNT - attempts`, so the
attempt number of one iteration (the post-increment `attempts`) is
`RETRY_COUNT - remaining + 1`.  Returns the state and the final `success`. -/
def attemptLoop (env : WorkerEnv) (sku : String) (idx : Nat) :
    Nat → Bool → WState → WState × Bool
  | 0, success, st => (st, success)
  | remaining + 1, success, st =>
    if success = false ∧ abortB env st.t = false then
      let n := RETRY_COUNT - remaining
      let sp := env.attempt idx n
      let st1 := if sp.preCaptcha then captchaPause env st msgCaptchaPre else st
      let st2 := pushLog st1 (msgAttempt sku n)
      let st3 := sleepT (pushLogs st2 sp.plogs) sp.duration
      match sp.outcome with
      | .retP true => attemptLoop env sku idx remaining true st3
      | .retP false => attemptLoop env sku idx remaining false (sleepT st3 (2 * RETRY_DELAY))
      | .raiseCaptchaP =>
        attemptLoop env sku idx remaining false (captchaPause env st3 msgCaptchaRaised)
      | .raiseOtherP =>
        attemptLoop env sku idx remaining false
          (sleepT (pushLog st3 (msgWorkerErr sku)) (2 * RETRY_DELAY))
    else (st, success)

/-- Result of the run: normal return or an uncaught exception
(`crashR` carries the state at the raise; nothing after it is emitted). -/
inductive RunRes
| normalR (st : WState)
| crashR (st : WState)
deriving DecidableEq

/-- Success epilogue and failure epilogue of one item (lines 516-522),
after the attempt loop. -/
def processItemAttempts (env : WorkerEnv) (cid sku : String) (idx total : Nat)
    (st : WState) : RunRes :=
  let r := attemptLoop env sku idx RETRY_COUNT false st
  if r.2 then
    if env.addProcRaises idx then .crashR r.1
    else
      .normalR (pushProgress
        (pushLog { r.1 with db := addProcessed r.1.db cid sku } (msgSuccess sku))
        (idx + 1) total)
  else .normalR (pushProgress (pushLog r.1 (msgFailAll sku)) (idx + 1) total)

/-- One iteration of the item loop body after the abort check (lines
486-522): the skip check (`skip_processed and is_processed`), then the
attempt loop and its epilogue.  `idx` is 0-based; progress is emitted with
`idx + 1` (`enumerate(..., start=1)`). -/
def processItem (env : WorkerEnv) (cid sku : String) (skip : Bool) (idx total : Nat)
    (st : WState) : RunRes :=
  if skip then
    if env.isProcRaises idx then .crashR st
    else if isProcessed st.db cid sku then
      .normalR (pushProgress (pushLog st (msgSkip sku)) (idx + 1) total)
    else processItemAttempts env cid sku idx total st
  else processItemAttempts env cid sku idx total st

/-- The `for idx, sku in enumerate(self.skus, start=1)` loop with its
top-of-loop abort check (lines 481-483). -/
def itemsLoop (env : WorkerEnv) (cid : String) (skip : Bool) (total : Nat) :
    List String → Nat → WState → RunRes
  | [], _, st => .normalR st
  | sku :: rest, idx, st =>
    if abortB env st.t then .normalR st
    else
      match processItem env cid sku skip idx total st with
      | .crashR s => .crashR s
      | .normalR s => itemsLoop env cid skip total rest (idx + 1) s

/-- `ProcessWorker.run` (lines 479-524): the item loop, then
`finished_signal.emit()`; an uncaught exception skips the emit. -/
def workerRun (env : WorkerEnv) (cid : String) (skip : Bool) (skus : List String)
    (db0 : List PRow) : RunRes :=
  match itemsLoop env cid skip skus.length skus 0 ⟨0, db0, [], 0⟩ with
  | .normalR st => .normalR { st with events := st.events ++ [WEvent.finishedE st.t] }
  | .crashR st => .crashR st

/-- Extract the state a run result carries. -/
def stOf : RunRes → WState
  | .normalR st => st
  | .crashR st => st

/-- Whether an event is the finished signal. -/
def isFinishedEv : WEvent → Bool
  | .finishedE _ => true
  | _ => false

/-- Number of finished signals in an event list. -/
def countF (l : List WEvent) : Nat := l.countP isFinishedEv

lemma countF_nil : countF [] = 0 := rfl

lemma countF_append (a b : List WEvent) : countF (a ++ b) = countF a + countF b :=
  List.countP_append _ _ _

lemma countF_logE (t : Nat) (m : String) : countF [WEvent.logE t m] = 0 := rfl

lemma countF_captchaE (t : Nat) (m : String) : countF [WEvent.captchaE t m] = 0 := rfl

lemma countF_progressE (t d tot : Nat) : countF [WEvent.progressE t d tot] = 0 := rfl

lemma countF_finishedE (t : Nat) : countF [WEvent.finishedE t] = 1 := rfl

lemma countF_map_log (t : Nat) (ms : List String) :
    countF (ms.map (WEvent.logE t)) = 0 := by
  induction ms with
  | nil => rfl
  | cons m ms ih =>
    simp only [countF] at ih
    simp [countF, List.countP_cons, isFinishedEv, ih]

lemma countF_pushLog (st : WState) (m : String) :
    countF (pushLog st m).events = countF st.events := by
  simp [pushLog, countF_append, countF_logE]

lemma countF_pushLogs (st : WState) (ms : List String) :
    countF (pushLogs st ms).events = countF st.events := by
  simp [pushLogs, countF_append, countF_map_log]

lemma countF_pushCaptcha (st : WState) (m : String) :
    countF (pushCaptcha st m).events = countF st.events := by
  simp [pushCaptcha, countF_append, countF_captchaE]

lemma countF_pushProgress (st : WState) (d tot : Nat) :
    countF (pushProgress st d tot).events = countF st.events := by
  simp [pushProgress, countF_append, countF_progressE]

lemma countF_captchaPause (env : WorkerEnv) (st : WState) (m : String) :
    countF (captchaPause env st m).events = countF st.events := by
  simp [captchaPause, countF_pushCaptcha]

lemma events_sleepT (st : WState) (d : Nat) : (sleepT st d).events = st.events := rfl

/-- The attempt loop emits no finished signal. -/
lemma attemptLoop_countF (env : WorkerEnv) (sku : String) (idx : Nat) :
    ∀ (r : Nat) (succ : Bool) (st : WState),
      countF ((attemptLoop env sku idx r succ st).1.events) = countF st.events := by
  intro r
  induction r with
  | zero => intro succ st; rfl
  | succ r ih =>
    intro succ st
    simp only [attemptLoop]
    by_cases h : succ = false ∧ abortB env st.t = false
    · rw [if_pos h]
      have hbase : ∀ st2 : WState, countF st2.events = countF st.events →
          countF ((sleepT (pushLogs (pushLog st2
            (msgAttempt sku (RETRY_COUNT - r)))
            (env.attempt idx (RETRY_COUNT - r)).plogs)
            (env.attempt idx (RETRY_COUNT - r)).duration).events) = countF st.events := by
        intro st2 h2
        rw [events_sleepT, countF_pushLogs, countF_pushLog, h2]
      have hst1 : countF ((if (env.attempt idx (RETRY_COUNT - r)).preCaptcha = true then
          captchaPause env st msgCaptchaPre else st).events) = countF st.events := by
        by_cases hp : (env.attempt idx (RETRY_COUNT - r)).preCaptcha <;>
          simp [hp, countF_captchaPause]
      rcases ho : (env.attempt idx (RETRY_COUNT - r)).outcome with b | _ | _
      · cases b
        · simp only [ho]
          rw [ih]
          rw [events_sleepT]
          exact hbase _ hst1
        · simp only [ho]
          rw [ih]
          exact hbase _ hst1
      · simp only [ho]
        rw [ih, countF_captchaPause]
        exact hbase _ hst1
      · simp only [ho]
        rw [ih, events_sleepT, countF_pushLog]
        exact hbase _ hst1
    · rw [if_neg h]

/-- One item iteration emits no finished signal. -/
lemma processItem_countF (env : WorkerEnv) (cid sku : String) (skip : Bool)
    (idx total : Nat) (st : WState) :
    countF (stOf (processItem env cid sku skip idx total st)).events = countF st.events := by
  unfold processItem processItemAttempts
  rcases ha : attemptLoop env sku idx RETRY_COUNT false st with ⟨s1, b⟩
  have hc : countF s1.events = countF st.events := by
    have h2 := attemptLoop_countF env sku idx RETRY_COUNT false st
    rw [ha] at h2
    exact h2
  cases b <;> repeat' split
  all_goals simp [stOf, countF_pushProgress, countF_pushLog, hc]

/-- The item loop emits no finished signal. -/
lemma itemsLoop_countF (env : WorkerEnv) (cid : String) (skip : Bool) (total : Nat) :
    ∀ (skus : List String) (idx : Nat) (st : WState),
      countF (stOf (itemsLoop env cid skip total skus idx st)).events = countF st.events := by
  intro skus
  induction skus with
  | nil => intro idx st; rfl
  | cons sku rest ih =>
    intro idx st
    simp only [itemsLoop]
    by_cases h : abortB env st.t
    · simp [h, stOf]
    · rw [if_neg h]
      rcases hp : processItem env cid sku skip idx total st with s | s
      · have h2 := processItem_countF env cid sku skip idx total st
        rw [hp] at h2
        simp only [stOf] at h2
        simp only []
        rw [ih (idx + 1) s, h2]
      · have h2 := processItem_countF env cid sku skip idx total st
        rw [hp] at h2
        simpa [stOf] using h2

/-- The trivial oracle: every attempt immediately succeeds, no captcha, no
abort, no storage fault. -/
def envC10 : WorkerEnv where
  attempt := fun _ _ => ⟨false, .retP true, 0, []⟩
  resumeTick := fun _ => 0
  abortAt := none
  isProcRaises := fun _ => false
  addProcRaises := fun _ => false

/-- **C10.** Whenever `run` terminates without an exception — including
when the abort flag stopped it early — the finished signal was emitted
exactly once, as the very last event of the run (hence after the last
progress emission). -/
theorem worker_finished_once_last (env : WorkerEnv) (cid : String) (skip : Bool)
    (skus : List String) (db0 : List PRow) (st : WState)
    (h : workerRun env cid skip skus db0 = .normalR st) :
    st.events.getLast? = some (WEvent.finishedE st.t) ∧ countF st.events = 1 := by
  unfold workerRun at h
  rcases hi : itemsLoop env cid skip skus.length skus 0 ⟨0, db0, [], 0⟩ with s | s
  · rw [hi] at h
    simp only [] at h
    have hst : st = { s with events := s.events ++ [WEvent.finishedE s.t] } := by
      cases h
      rfl
    subst hst
    have hc := itemsLoop_countF env cid skip skus.length skus 0 ⟨0, db0, [], 0⟩
    rw [hi] at hc
    simp only [stOf] at hc
    constructor
    · simp
    · simp only []
      rw [countF_append, hc]
      rfl
  · rw [hi] at h
    cases h

/-- Witness for C10: the empty job emits exactly the finished signal. -/
theorem worker_finished_once_last_witness :
    (⟨0, [], [WEvent.finishedE 0], 0⟩ : WState).events.getLast? =
        some (WEvent.finishedE (⟨0, [], [WEvent.finishedE 0], 0⟩ : WState).t) ∧
      countF (⟨0, [], [WEvent.finishedE 0], 0⟩ : WState).events = 1 :=
  worker_finished_once_last envC10 "77" false [] [] ⟨0, [], [WEvent.finishedE 0], 0⟩ rfl

/-! ### Claim C4: storage failures -/

/-- Oracle whose `is_processed` call raises for every item. -/
def envC4 : WorkerEnv where
  attempt := fun _ _ => ⟨false, .retP true, 0, []⟩
  resumeTick := fun _ => 0
  abortAt := none
  isProcRaises := fun _ => true
  addProcRaises := fun _ => false

/-- Oracle whose `add_processed` call raises for every item, with every
attempt succeeding immediately. -/
def envC4b : WorkerEnv where
  attempt := fun _ _ => ⟨false, .retP true, 0, []⟩
  resumeTick := fun _ => 0
  abortAt := none
  isProcRaises := fun _ => false
  addProcRaises := fun _ => true

/-- **C4 counterexample.** With the skip flag set and `is_processed`
raising, the run terminates at once as an uncaught exception: nothing is
logged, no progress and no finished signal is emitted, and no further item
is attempted — refuting "the failure is logged, treated as not recorded,
and the run continues". -/
theorem storage_failure_crashes_counterexample :
    workerRun envC4 "77" true ["A1", "A2"] [] = .crashR ⟨0, [], [], 0⟩ ∧
      countF (stOf (workerRun envC4 "77" true ["A1", "A2"] [])).events = 0 :=
  ⟨rfl, rfl⟩

/-- **C4 (amended).** Exceptions from the Idempotency Store are not caught
by `run`: an `is_processed` failure during the skip check, or an
`add_processed` failure after a successful item, propagates out of `run`
and terminates the worker — and a crashed run never emits the finished
signal.  (Only exceptions raised inside the per-attempt `try`, which makes
no storage call, are logged and survived.) -/
theorem storage_failure_uncaught
    (env1 : WorkerEnv) (cid1 sku1 : String) (idx1 total1 : Nat) (st1 : WState)
    (env2 : WorkerEnv) (cid2 sku2 : String) (idx2 total2 : Nat) (st2 st2r : WState)
    (env3 : WorkerEnv) (cid3 : String) (skip3 : Bool) (skus3 : List String)
    (db3 : List PRow) (stc : WState)
    (h1 : env1.isProcRaises idx1 = true)
    (h2 : env2.addProcRaises idx2 = true)
    (h2b : attemptLoop env2 sku2 idx2 RETRY_COUNT false st2 = (st2r, true))
    (h3 : workerRun env3 cid3 skip3 skus3 db3 = .crashR stc) :
    processItem env1 cid1 sku1 true idx1 total1 st1 = .crashR st1 ∧
      processItem env2 cid2 sku2 false idx2 total2 st2 = .crashR st2r ∧
      countF stc.events = 0 := by
  refine ⟨?_, ?_, ?_⟩
  · simp [processItem, h1]
  · simp [processItem, processItemAttempts, h2b, h2]
  · unfold workerRun at h3
    rcases hi : itemsLoop env3 cid3 skip3 skus3.length skus3 0 ⟨0, db3, [], 0⟩ with s | s
    · rw [hi] at h3
      cases h3
    · rw [hi] at h3
      have hc := itemsLoop_countF env3 cid3 skip3 skus3.length skus3 0 ⟨0, db3, [], 0⟩
      rw [hi] at hc
      simp only [stOf] at hc
      cases h3
      exact hc

/-- Witness for C4 at the concrete oracles. -/
theorem storage_failure_uncaught_witness :
    processItem envC4 "77" "A1" true 0 1 ⟨0, [], [], 0⟩ = .crashR ⟨0, [], [], 0⟩ ∧
      processItem envC4b "77" "A1" false 0 1 ⟨0, [], [], 0⟩ =
        .crashR ⟨0, [], [WEvent.logE 0 (msgAttempt "A1" 1)], 0⟩ ∧
      countF (⟨0, [], [], 0⟩ : WState).events = 0 :=
  storage_failure_uncaught envC4 "77" "A1" 0 1 ⟨0, [], [], 0⟩
    envC4b "77" "A1" 0 1 ⟨0, [], [], 0⟩ ⟨0, [], [WEvent.logE 0 (msgAttempt "A1" 1)], 0⟩
    envC4 "77" true ["A1"] [] ⟨0, [], [], 0⟩
    rfl rfl rfl rfl

/-! ### Claim C7: exhausted items -/

/-- Oracle in which every attempt fails instantly. -/
def envC7 : WorkerEnv where
  attempt := fun _ _ => ⟨false, .retP false, 0, []⟩
  resumeTick := fun _ => 0
  abortAt := none
  isProcRaises := fun _ => false
  addProcRaises := fun _ => false

/-- **C7.** For an item whose `RETRY_COUNT = 3` pipeline attempts all fail
(no abort raised), no completion record is written for it (the `processed`
table is unchanged), the item is reported failed in the log, and the
progress tuple is still emitted for it — as the very last event of the
item, before the orchestrator moves on.  The conclusion is the exact event
stream: three attempt headers with their pipeline logs, the failure log,
then the progress tuple, with a `RETRY_DELAY` sleep after every failed
attempt. -/
theorem exhausted_item_no_record (env : WorkerEnv) (cid sku : String)
    (idx total : Nat) (st : WState) (d1 d2 d3 : Nat) (l1 l2 l3 : List String)
    (habort : env.abortAt = none)
    (h1 : env.attempt idx 1 = ⟨false, .retP false, d1, l1⟩)
    (h2 : env.attempt idx 2 = ⟨false, .retP false, d2, l2⟩)
    (h3 : env.attempt idx 3 = ⟨false, .retP false, d3, l3⟩) :
    processItem env cid sku false idx total st = .normalR
      { t := st.t + d1 + 2 * RETRY_DELAY + d2 + 2 * RETRY_DELAY + d3 + 2 * RETRY_DELAY,
        db := st.db,
        events := st.events ++
          (WEvent.logE st.t (msgAttempt sku 1) :: l1.map (WEvent.logE st.t)) ++
          (WEvent.logE (st.t + d1 + 2 * RETRY_DELAY) (msgAttempt sku 2) ::
            l2.map (WEvent.logE (st.t + d1 + 2 * RETRY_DELAY))) ++
          (WEvent.logE (st.t + d1 + 2 * RETRY_DELAY + d2 + 2 * RETRY_DELAY) (msgAttempt sku 3) ::
            l3.map (WEvent.logE (st.t + d1 + 2 * RETRY_DELAY + d2 + 2 * RETRY_DELAY))) ++
          [WEvent.logE (st.t + d1 + 2 * RETRY_DELAY + d2 + 2 * RETRY_DELAY + d3 + 2 * RETRY_DELAY)
              (msgFailAll sku),
           WEvent.progressE
              (st.t + d1 + 2 * RETRY_DELAY + d2 + 2 * RETRY_DELAY + d3 + 2 * RETRY_DELAY)
              (idx + 1) total],
        k := st.k } := by
  have hab : ∀ t, abortB env t = false := fun t => by simp [abortB, habort]
  simp [processItem, processItemAttempts, attemptLoop, RETRY_COUNT, hab, h1, h2, h3,
    pushLog, pushLogs, sleepT, pushProgress]

/-- Witness for C7 at the concrete oracle `envC7`. -/
theorem exhausted_item_no_record_witness :
    processItem envC7 "77" "A1" false 0 1 ⟨0, [("77", "B2")], [], 0⟩ = .normalR
      { t := 0 + 0 + 2 * RETRY_DELAY + 0 + 2 * RETRY_DELAY + 0 + 2 * RETRY_DELAY,
        db := [("77", "B2")],
        events := [] ++
          (WEvent.logE 0 (msgAttempt "A1" 1) :: List.map (WEvent.logE 0) []) ++
          (WEvent.logE (0 + 0 + 2 * RETRY_DELAY) (msgAttempt "A1" 2) ::
            List.map (WEvent.logE (0 + 0 + 2 * RETRY_DELAY)) []) ++
          (WEvent.logE (0 + 0 + 2 * RETRY_DELAY + 0 + 2 * RETRY_DELAY) (msgAttempt "A1" 3) ::
            List.map (WEvent.logE (0 + 0 + 2 * RETRY_DELAY + 0 + 2 * RETRY_DELAY)) []) ++
          [WEvent.logE (0 + 0 + 2 * RETRY_DELAY + 0 + 2 * RETRY_DELAY + 0 + 2 * RETRY_DELAY)
              (msgFailAll "A1"),
           WEvent.progressE (0 + 0 + 2 * RETRY_DELAY + 0 + 2 * RETRY_DELAY + 0 + 2 * RETRY_DELAY)
              (0 + 1) 1],
        k := 0 } :=
  exhausted_item_no_record envC7 "77" "A1" 0 1 ⟨0, [("77", "B2")], [], 0⟩ 0 0 0 [] [] []
    rfl rfl rfl rfl

/-! ### Claims C2 and C3: abort latency and captcha pauses -/

/-- Once the abort flag reads true, the retry loop starts no further
attempt: it returns at the next guard check without touching the state. -/
lemma attemptLoop_stop_of_abort (env : WorkerEnv) (sku : String) (idx : Nat) :
    ∀ (r : Nat) (st : WState), abortB env st.t = true →
      attemptLoop env sku idx r false st = (st, false) := by
  intro r st h
  cases r with
  | zero => rfl
  | succ r => simp [attemptLoop, h]

/-- After a success the retry loop exits at the next guard check. -/
lemma attemptLoop_stop_of_success (env : WorkerEnv) (sku : String) (idx : Nat) :
    ∀ (r : Nat) (st : WState), attemptLoop env sku idx r true st = (st, true) := by
  intro r st
  cases r with
  | zero => rfl
  | succ r => simp [attemptLoop]

/-- Once the abort flag reads true, the item loop starts no further item:
the top-of-loop check breaks immediately. -/
lemma itemsLoop_stop_of_abort (env : WorkerEnv) (cid : String) (skip : Bool) (total : Nat) :
    ∀ (rest : List String) (idx : Nat) (st : WState), abortB env st.t = true →
      itemsLoop env cid skip total rest idx st = .normalR st := by
  intro rest idx st h
  cases rest with
  | nil => rfl
  | cons a t => simp [itemsLoop, h]

/-- Oracle with a single instantly-failing attempt and the abort flag set
at tick 1 — i.e. half a second into the 5-second retry sleep. -/
def envC2 : WorkerEnv where
  attempt := fun _ _ => ⟨false, .retP false, 0, []⟩
  resumeTick := fun _ => 0
  abortAt := some 1
  isProcRaises := fun _ => false
  addProcRaises := fun _ => false

/-- **C2 counterexample.** The abort flag is set at tick 1 (0.5 s), during
the retry delay that runs over ticks 0-10; the run only finishes at tick
10 (5 s), because `time.sleep(RETRY_DELAY)` is atomic and the flag is not
polled inside it — refuting "halts within one polling interval (at most
0.5 time units)". -/
theorem abort_retry_delay_latency_counterexample :
    envC2.abortAt = some 1 ∧
    workerRun envC2 "77" false ["A1"] [] = .normalR ⟨10, [],
      [WEvent.logE 0 (msgAttempt "A1" 1), WEvent.logE 10 (msgFailAll "A1"),
       WEvent.progressE 10 1 1, WEvent.finishedE 10], 0⟩ ∧
    ¬ (10 ≤ 1 + 1) :=
  ⟨rfl, rfl, by decide⟩

/-- **C2 (amended).** If the abort flag is set while the worker is inside
the fixed retry delay, the loop does start no new attempt and no new item
once the delay completes: the attempt loop returns right after the sleep
(only the current attempt header and its pipeline logs were emitted), and
the item loop breaks at its next top-of-loop check.  But the halt latency
is the remainder of the full `RETRY_DELAY` sleep (up to 5 time units), not
one 0.5-unit polling interval: the flag is not polled inside the retry
sleep; the 0.5-unit polling exists only in the captcha-pause wait. -/
theorem abort_in_retry_delay_latency
    (env : WorkerEnv) (sku : String) (idx r : Nat) (st : WState) (d : Nat) (lp : List String)
    (cid : String) (skip : Bool) (total : Nat) (rest : List String) (idx2 : Nat)
    (h1 : env.attempt idx (RETRY_COUNT - r) = ⟨false, .retP false, d, lp⟩)
    (h2 : abortB env st.t = false)
    (h3 : abortB env (st.t + d + 2 * RETRY_DELAY) = true) :
    attemptLoop env sku idx (r + 1) false st =
      ({ t := st.t + d + 2 * RETRY_DELAY, db := st.db,
         events := st.events ++ WEvent.logE st.t (msgAttempt sku (RETRY_COUNT - r)) ::
           lp.map (WEvent.logE st.t),
         k := st.k }, false) ∧
    itemsLoop env cid skip total rest idx2
        { t := st.t + d + 2 * RETRY_DELAY, db := st.db,
          events := st.events ++ WEvent.logE st.t (msgAttempt sku (RETRY_COUNT - r)) ::
            lp.map (WEvent.logE st.t),
          k := st.k } =
      .normalR
        { t := st.t + d + 2 * RETRY_DELAY, db := st.db,
          events := st.events ++ WEvent.logE st.t (msgAttempt sku (RETRY_COUNT - r)) ::
            lp.map (WEvent.logE st.t),
          k := st.k } := by
  constructor
  · simp [attemptLoop, h1, h2, h3, pushLog, pushLogs, sleepT, attemptLoop_stop_of_abort]
  · exact itemsLoop_stop_of_abort env cid skip total rest idx2 _ h3

/-- Witness for C2 at the concrete oracle `envC2`. -/
theorem abort_in_retry_delay_latency_witness :
    attemptLoop envC2 "A1" 0 (2 + 1) false ⟨0, [], [], 0⟩ =
      ({ t := 0 + 0 + 2 * RETRY_DELAY, db := [],
         events := [] ++ WEvent.logE 0 (msgAttempt "A1" (RETRY_COUNT - 2)) ::
           List.map (WEvent.logE 0) [],
         k := 0 }, false) ∧
    itemsLoop envC2 "77" false 2 ["B1"] 1
        { t := 0 + 0 + 2 * RETRY_DELAY, db := [],
          events := [] ++ WEvent.logE 0 (msgAttempt "A1" (RETRY_COUNT - 2)) ::
            List.map (WEvent.logE 0) [],
          k := 0 } =
      .normalR
        { t := 0 + 0 + 2 * RETRY_DELAY, db := [],
          events := [] ++ WEvent.logE 0 (msgAttempt "A1" (RETRY_COUNT - 2)) ::
            List.map (WEvent.logE 0) [],
          k := 0 } :=
  abort_in_retry_delay_latency envC2 "A1" 0 2 ⟨0, [], [], 0⟩ 0 [] "77" false 2 ["B1"] 1
    rfl rfl rfl

/-- Oracle whose every attempt raises the captcha `RuntimeError`
mid-pipeline, with the operator resuming immediately. -/
def envC3 : WorkerEnv where
  attempt := fun _ _ => ⟨false, .raiseCaptchaP, 0, []⟩
  resumeTick := fun _ => 0
  abortAt := none
  isProcRaises := fun _ => false
  addProcRaises := fun _ => false

/-- **C3 counterexample.** Every attempt of the item raises the captcha
`RuntimeError` mid-pipeline and the operator resumes immediately; after
three pause/resume cycles the attempt counter has advanced 1 → 2 → 3 and
the item is reported exhausted ("НЕ УДАЛОСЬ...") — refuting "pausing never
consumes a retry attempt, so an item can never reach Exhausted through
pauses alone". -/
theorem captcha_pause_consumes_attempt_counterexample :
    envC3.attempt 0 1 = ⟨false, .raiseCaptchaP, 0, []⟩ ∧
    envC3.attempt 0 2 = ⟨false, .raiseCaptchaP, 0, []⟩ ∧
    envC3.attempt 0 3 = ⟨false, .raiseCaptchaP, 0, []⟩ ∧
    workerRun envC3 "77" false ["A1"] [] = .normalR ⟨0, [],
      [WEvent.logE 0 (msgAttempt "A1" 1),
       WEvent.captchaE 0 msgCaptchaRaised,
       WEvent.logE 0 (msgAttempt "A1" 2),
       WEvent.captchaE 0 msgCaptchaRaised,
       WEvent.logE 0 (msgAttempt "A1" 3),
       WEvent.captchaE 0 msgCaptchaRaised,
       WEvent.logE 0 (msgFailAll "A1"),
       WEvent.progressE 0 1 1,
       WEvent.finishedE 0], 3⟩ ∧
    WEvent.logE 0 (msgFailAll "A1") ∈
      (stOf (workerRun envC3 "77" false ["A1"] [])).events :=
  ⟨rfl, rfl, rfl, rfl, by decide⟩

/-- **C3 (amended).** A captcha detected by the pre-attempt check pauses
without consuming the attempt: after resume, the pipeline runs as the same
attempt `n = RETRY_COUNT - r` within the same iteration, and exactly one
attempt header for `n` is logged.  A captcha raised mid-pipeline, however,
aborts that attempt: after the pause-and-resume, control re-enters the
retry guard with one fewer remaining attempt, so the next attempt is
`n + 1` — mid-pipeline pauses do consume attempts. -/
theorem captcha_pause_attempt_semantics
    (envA : WorkerEnv) (skuA : String) (idxA rA : Nat) (stA : WState) (dA : Nat)
    (lA : List String)
    (envB : WorkerEnv) (skuB : String) (idxB rB : Nat) (stB : WState) (dB : Nat)
    (lB : List String)
    (hA1 : envA.attempt idxA (RETRY_COUNT - rA) = ⟨true, .retP true, dA, lA⟩)
    (hA2 : abortB envA stA.t = false)
    (hB1 : envB.attempt idxB (RETRY_COUNT - rB) = ⟨false, .raiseCaptchaP, dB, lB⟩)
    (hB2 : abortB envB stB.t = false) :
    attemptLoop envA skuA idxA (rA + 1) false stA =
      ({ t := waitCaptcha envA (envA.resumeTick stA.k) stA.t + dA,
         db := stA.db,
         events := stA.events ++ WEvent.captchaE stA.t msgCaptchaPre ::
           WEvent.logE (waitCaptcha envA (envA.resumeTick stA.k) stA.t)
             (msgAttempt skuA (RETRY_COUNT - rA)) ::
           lA.map (WEvent.logE (waitCaptcha envA (envA.resumeTick stA.k) stA.t)),
         k := stA.k + 1 }, true) ∧
    attemptLoop envB skuB idxB (rB + 1) false stB =
      attemptLoop envB skuB idxB rB false
        { t := waitCaptcha envB (envB.resumeTick stB.k) (stB.t + dB),
          db := stB.db,
          events := stB.events ++ WEvent.logE stB.t (msgAttempt skuB (RETRY_COUNT - rB)) ::
            (lB.map (WEvent.logE stB.t) ++ [WEvent.captchaE (stB.t + dB) msgCaptchaRaised]),
          k := stB.k + 1 } := by
  constructor
  · simp [attemptLoop, hA1, hA2, captchaPause, pushCaptcha, pushLog, pushLogs, sleepT,
      attemptLoop_stop_of_success]
  · simp only [attemptLoop]
    simp [hB1, hB2, captchaPause, pushCaptcha, pushLog, pushLogs, sleepT]

/-- Oracle whose attempts see the captcha in the pre-check and then
succeed, with the operator resuming immediately. -/
def envC3a : WorkerEnv where
  attempt := fun _ _ => ⟨true, .retP true, 0, []⟩
  resumeTick := fun _ => 0
  abortAt := none
  isProcRaises := fun _ => false
  addProcRaises := fun _ => false

/-- Witness for C3 at the concrete oracles `envC3a` and `envC3`. -/
theorem captcha_pause_attempt_semantics_witness :
    attemptLoop envC3a "A1" 0 (2 + 1) false ⟨0, [], [], 0⟩ =
      ({ t := waitCaptcha envC3a (envC3a.resumeTick 0) 0 + 0,
         db := [],
         events := [] ++ WEvent.captchaE 0 msgCaptchaPre ::
           WEvent.logE (waitCaptcha envC3a (envC3a.resumeTick 0) 0)
             (msgAttempt "A1" (RETRY_COUNT - 2)) ::
           List.map (WEvent.logE (waitCaptcha envC3a (envC3a.resumeTick 0) 0)) [],
         k := 0 + 1 }, true) ∧
    attemptLoop envC3 "A1" 0 (2 + 1) false ⟨0, [], [], 0⟩ =
      attemptLoop envC3 "A1" 0 2 false
        { t := waitCaptcha envC3 (envC3.resumeTick 0) (0 + 0),
          db := [],
          events := [] ++ WEvent.logE 0 (msgAttempt "A1" (RETRY_COUNT - 2)) ::
            (List.map (WEvent.logE 0) [] ++ [WEvent.captchaE (0 + 0) msgCaptchaRaised]),
          k := 0 + 1 } :=
  captcha_pause_attempt_semantics envC3a "A1" 0 2 ⟨0, [], [], 0⟩ 0 []
    envC3 "A1" 0 2 ⟨0, [], [], 0⟩ 0 [] rfl rfl rfl rfl

end YPR
